/-
Verification of the google-analytics-mcp server's core pure logic against
its natural-language specification.

The Python source is shallowly embedded:
  * Python strings that we reason about structurally are `List Char`
    (with `String.data` for literals); opaque strings stay `String`.
  * Python ints are `Int` / `Nat` (quota counters are non-negative).
  * Python floats in the quota computation are embedded as exact
    rationals `Rat`; `float.__format__(".1f")` is embedded as exact
    round-half-to-even at one decimal place.
  * `raise ValueError(msg)` is `Except.error (PyError.valueError msg)`.
  * Python dicts that the code only reads/writes at fixed keys become
    structures with `Option` fields (absent key = `none`); JSON
    documents are an inductive `JVal` with insertion-ordered fields.
-/
import Mathlib

namespace AnalyticsMcp

/-- Embedding of a raised Python exception. All validation failures in the
embedded code are `ValueError`s. -/
inductive PyError where
  | valueError (msg : String)
  deriving DecidableEq, Repr

deriving instance DecidableEq for Except

/-! ## Python string primitives (on `List Char`)

`str.strip()`, `str.isdigit()`, `str.split("/")`, `int(str)` and `str(int)`
as used by `construct_property_rn` in `analytics_mcp/tools/utils.py`. -/

/-- `str.strip()`: drop whitespace from both ends. -/
def pyStrip (cs : List Char) : List Char :=
  ((cs.dropWhile Char.isWhitespace).reverse.dropWhile Char.isWhitespace).reverse

/-- `str.isdigit()`: non-empty and every character a decimal digit
(restricted to ASCII digits in this embedding). -/
def pyIsDigit (cs : List Char) : Bool :=
  !cs.isEmpty && cs.all Char.isDigit

/-- `int(s)` for a digit string: decimal value. -/
def pyDigitsToNat (cs : List Char) : Nat :=
  cs.foldl (fun n c => 10 * n + (c.toNat - 48)) 0

/-- Decimal digit character for `d < 10` (junk otherwise). -/
def decChar : Nat → Char
  | 0 => '0' | 1 => '1' | 2 => '2' | 3 => '3' | 4 => '4'
  | 5 => '5' | 6 => '6' | 7 => '7' | 8 => '8' | 9 => '9'
  | _ => '*'

/-- Fuel-driven decimal rendering (structural recursion so that concrete
instances evaluate inside the kernel); `fuel > n` always suffices. -/
def natToCharsAux : Nat → Nat → List Char
  | 0, _ => []
  | fuel + 1, n =>
    if n < 10 then [decChar n]
    else natToCharsAux fuel (n / 10) ++ [decChar (n % 10)]

/-- `str(n)` for a natural number: decimal rendering. -/
def natToChars (n : Nat) : List Char := natToCharsAux (n + 1) n

/-- `str(i)` for a Python int: decimal rendering with sign. -/
def intToChars (i : Int) : List Char :=
  if i < 0 then '-' :: natToChars i.natAbs else natToChars i.natAbs

/-- `str(n)` as a Lean `String`, for embedded message formatting. -/
def natStr (n : Nat) : String := ⟨natToChars n⟩

/-- Helper for `s.split("/")`: accumulate until a `'/'`. -/
def splitSlashAux : List Char → List Char → List (List Char)
  | [], acc => [acc.reverse]
  | c :: rest, acc =>
    if c = '/' then acc.reverse :: splitSlashAux rest []
    else splitSlashAux rest (c :: acc)

/-- `s.split("/")`. -/
def splitSlash (cs : List Char) : List (List Char) := splitSlashAux cs []

/-! ## `construct_property_rn` (analytics_mcp/tools/utils.py) -/

/-- A Python `int | str` argument. -/
inductive PropertyValue where
  | int (n : Int)
  | str (s : List Char)
  deriving DecidableEq, Repr

/-- The `ValueError` message raised by `construct_property_rn`; `pv` is the
(stripped, for strings) input rendered into the f-string. -/
def invalidPropertyMsg (pv : List Char) : String :=
  "Invalid property ID: " ++ ⟨pv⟩ ++ ". " ++
    "A valid property value is either a number or a string starting " ++
    "with \x27properties/\x27 and followed by a number."

/-- Embedding of `construct_property_rn`: an `int` input is rendered
directly; a `str` input is stripped, then accepted if all-digits, or if it
starts with `"properties/"` and its last `/`-segment is all-digits;
otherwise a `ValueError` is raised. -/
def construct_property_rn : PropertyValue → Except PyError (List Char)
  | .int n => .ok ("properties/".data ++ intToChars n)
  | .str s0 =>
    let s := pyStrip s0
    if pyIsDigit s then
      .ok ("properties/".data ++ natToChars (pyDigitsToNat s))
    else if "properties/".data.isPrefixOf s then
      let numericPart := (splitSlash s).getLastD []
      if pyIsDigit numericPart then
        .ok ("properties/".data ++ natToChars (pyDigitsToNat numericPart))
      else .error (.valueError (invalidPropertyMsg s))
    else .error (.valueError (invalidPropertyMsg s))

/-! ## `retry_on_auth_error` (analytics_mcp/tools/utils.py)

The wrapped async operation is embedded as a function from the attempt
number to an outcome: it either returns a value or raises. The wrapper
distinguishes `google.api_core` `Unauthenticated`/`Forbidden` exceptions
(caught and keyword-inspected) from every other exception (re-raised at
once). The number of `invalidate_cached_credentials()` calls is returned
alongside the result. -/

/-- A raised exception as classified by the wrapper's `except` clauses. -/
inductive PyExc where
  | unauthenticatedOrForbidden (msg : String)
  | other (msg : String)
  deriving DecidableEq, Repr

/-- Outcome of one attempt of the wrapped operation. -/
inductive Outcome (α : Type) where
  | success (v : α)
  | raise (e : PyExc)
  deriving DecidableEq, Repr

/-- `str.lower()` (ASCII). -/
def pyLower (s : String) : String := ⟨s.data.map Char.toLower⟩

/-- `needle in haystack` for Python strings (substring test). -/
def listIsInfixOf (needle : List Char) : List Char → Bool
  | [] => needle.isEmpty
  | c :: rest => needle.isPrefixOf (c :: rest) || listIsInfixOf needle rest

/-- The fixed keyword list of `retry_on_auth_error`. -/
def authErrorKeywords : List String :=
  ["401", "unauthorized", "unauthenticated",
   "invalid authentication", "authentication credential",
   "access token", "expired", "refresh"]

/-- `any(keyword in str(e).lower() for keyword in [...])`. -/
def isAuthErrorMsg (msg : String) : Bool :=
  authErrorKeywords.any (fun k => listIsInfixOf k.data (pyLower msg).data)

/-- The `for attempt in range(max_retries + 1)` loop, by structural
recursion on the remaining iteration count. `lastExc` mirrors the
defensive `last_exception` re-raise after the loop (unreachable when the
fuel is `maxRetries + 1`). Returns the result together with the number of
`invalidate_cached_credentials()` calls. -/
def retryAux (op : Nat → Outcome α) (maxRetries : Nat) :
    Nat → Nat → Nat → Option PyExc → (Except PyExc α) × Nat
  | 0, _, inv, lastExc => (.error (lastExc.getD (.other "")), inv)
  | remaining + 1, attempt, inv, _ =>
    match op attempt with
    | .success v => (.ok v, inv)
    | .raise (.unauthenticatedOrForbidden msg) =>
      if isAuthErrorMsg msg && decide (attempt < maxRetries) then
        retryAux op maxRetries remaining (attempt + 1) (inv + 1)
          (some (.unauthenticatedOrForbidden msg))
      else (.error (.unauthenticatedOrForbidden msg), inv)
    | .raise (.other msg) => (.error (.other msg), inv)

/-- Embedding of `retry_on_auth_error(func, max_retries)`. -/
def retry_on_auth_error (op : Nat → Outcome α) (maxRetries : Nat) :
    (Except PyExc α) × Nat :=
  retryAux op maxRetries (maxRetries + 1) 0 0 none

/-! ## Realtime report quota logic (analytics_mcp/tools/reporting/realtime.py)

`proto_to_dict(response.property_quota)` is a dict from bucket name to a
value; the scan only acts on values that are dicts containing both a
`"consumed"` and a `"remaining"` key (non-negative integers). The float
computation `consumed / total > 0.9` is embedded over exact rationals. -/

/-- A value of the quota dict: a sub-dict with optional `consumed` /
`remaining` entries, or something that is not a dict. -/
inductive QuotaVal where
  | dictVal (consumed : Option Nat) (remaining : Option Nat)
  | nonDict
  deriving DecidableEq, Repr

/-- `total > 0 and (consumed / total) > 0.9` for one bucket. -/
def bucketTriggers (c r : Nat) : Bool :=
  decide (0 < c + r) && decide ((9 : ℚ) / 10 < (c : ℚ) / ((c : ℚ) + (r : ℚ)))

/-- Round `a / b` to the nearest integer, ties to even (the rounding of
`float.__format__` at the displayed digit). -/
def roundHalfEven10 (a b : Nat) : Nat :=
  let q := a / b
  let rem := a % b
  if 2 * rem < b then q
  else if b < 2 * rem then q + 1
  else if q % 2 = 0 then q else q + 1

/-- `f"{(consumed / total * 100):.1f}"`: the percentage rendered with one
decimal place. -/
def fmtPct1 (c total : Nat) : String :=
  let n := roundHalfEven10 (1000 * c) total
  natStr (n / 10) ++ "." ++ natStr (n % 10)

/-- The warning f-string of `run_realtime_report`. -/
def quotaWarningString (name : String) (c total : Nat) : String :=
  "WARNING: " ++ name ++ " is at " ++ fmtPct1 c total ++ "% (" ++
    natStr c ++ "/" ++ natStr total ++ "). Approaching quota limit."

/-- The `for quota_name, quota_info in quota_dict.items()` scan: the first
bucket (in insertion order) with both counters present, a positive total
and usage above 0.9 produces the warning and stops the scan. -/
def quota_warning_scan : List (String × QuotaVal) → Option String
  | [] => none
  | (name, .dictVal (some c) (some r)) :: rest =>
    if bucketTriggers c r then some (quotaWarningString name c (c + r))
    else quota_warning_scan rest
  | _ :: rest => quota_warning_scan rest

/-- Whether one quota-dict entry satisfies the scan's warning condition
(a dict with both counters, positive total, usage above 0.9). -/
def entryTriggers : String × QuotaVal → Bool
  | (_, .dictVal (some c) (some r)) => bucketTriggers c r
  | _ => false

/-- The quota-related part of `run_realtime_report`'s result dict: the
optional `"quota"` entry and the optional `"quota_warning"` entry, from
the response's optional quota structure and the tool's
`return_property_quota` argument. -/
def realtime_quota_output (return_property_quota : Bool)
    (property_quota : Option (List (String × QuotaVal))) :
    Option (List (String × QuotaVal)) × Option String :=
  match property_quota with
  | none => (none, none)
  | some quota_dict =>
    let quota_warning := quota_warning_scan quota_dict
    if return_property_quota || quota_warning.isSome then
      (some quota_dict, quota_warning)
    else (none, none)

/-- The `RunRealtimeReportRequest` sent to the Data API, over opaque
filter payloads `φ` and order-by payloads `ω`. `limit = none` means the
proto field was never assigned. -/
structure RunRealtimeReportRequest (φ ω : Type) where
  property : List Char
  dimensions : List String
  metrics : List String
  return_property_quota : Bool
  dimension_filter : Option φ
  metric_filter : Option φ
  order_bys : List ω
  limit : Option Int

/-- Embedding of the request-construction part of `run_realtime_report`
(everything before the API call). `dimension_filter`/`metric_filter` are
`none` when the argument was absent or falsy; a falsy `limit` (0) leaves
the proto field unassigned. -/
def run_realtime_report_request (property_id : List Char)
    (dimensions metrics : List String)
    (dimension_filter metric_filter : Option φ)
    (order_bys : Option (List ω)) (limit : Int) :
    Except PyError (RunRealtimeReportRequest φ ω) :=
  (construct_property_rn (.str property_id)).map fun prop =>
    { property := prop
      dimensions := dimensions
      metrics := metrics
      return_property_quota := true
      dimension_filter := dimension_filter
      metric_filter := metric_filter
      order_bys := order_bys.getD []
      limit := if limit = 0 then none else some limit }

/-! ## `run_funnel_report` request construction
(analytics_mcp/tools/reporting/core.py — the variant registered by
`analytics_mcp/server.py`)

Funnel-step dicts carry an optional `name`, an optional
`filter_expression` payload (opaque type `δ`, passed through verbatim)
and an optional `event` string; a non-dict step is its own case. -/

/-- A `FunnelFilterExpression` as built per step: either the caller's
payload used as-is or the `funnel_event_filter=FunnelEventFilter(
event_name=...)` expansion. -/
inductive FunnelFilterExpr (δ : Type) where
  | provided (d : δ)
  | funnelEventFilter (event_name : String)
  deriving DecidableEq, Repr

/-- A built `FunnelStep`. -/
structure FunnelStep (δ : Type) where
  name : String
  filter_expression : FunnelFilterExpr δ
  deriving DecidableEq, Repr

/-- The caller-supplied step dict (`None`-able fields = absent keys). -/
structure FunnelStepInput (δ : Type) where
  name : Option String
  filter_expression : Option δ
  event : Option String
  deriving DecidableEq, Repr

/-- One element of the `funnel_steps` argument. -/
inductive StepArg (δ : Type) where
  | dict (d : FunnelStepInput δ)
  | nonDict
  deriving DecidableEq, Repr

/-- The message of the "neither key" `ValueError` for step index `i`
(0-based; the message shows `i + 1`). -/
def stepNeitherKeyMsg (i : Nat) : String :=
  "Step " ++ natStr (i + 1) ++
    " must contain either \x27filter_expression\x27 or \x27event\x27 key"

/-- The `for i, step in enumerate(funnel_steps)` loop of
`run_funnel_report`: validates each step and builds its `FunnelStep`,
raising at the first invalid step. -/
def build_funnel_steps : List (StepArg δ) → Nat →
    Except PyError (List (FunnelStep δ))
  | [], _ => .ok []
  | .nonDict :: _, i =>
    .error (.valueError ("Step " ++ natStr (i + 1) ++ " must be a dictionary"))
  | .dict d :: rest, i =>
    let step_name := d.name.getD ("Step " ++ natStr (i + 1))
    match d.filter_expression with
    | some fe =>
      (build_funnel_steps rest (i + 1)).map
        (fun l => ⟨step_name, .provided fe⟩ :: l)
    | none =>
      match d.event with
      | some e =>
        (build_funnel_steps rest (i + 1)).map
          (fun l => ⟨step_name, .funnelEventFilter e⟩ :: l)
      | none => .error (.valueError (stepNeitherKeyMsg i))

/-- A `date_ranges` element: a dict with optional `start_date` /
`end_date`, or not a dict at all. -/
inductive DateRangeArg where
  | dict (start_date : Option String) (end_date : Option String)
  | nonDict
  deriving DecidableEq, Repr

/-- The date-range validation loop of `run_funnel_report`. -/
def build_date_ranges : List DateRangeArg → Except PyError (List (String × String))
  | [] => .ok []
  | .dict (some sd) (some ed) :: rest =>
    (build_date_ranges rest).map (fun l => (sd, ed) :: l)
  | _ :: _ =>
    .error (.valueError
      ("Each date range must be a dictionary with \x27start_date\x27 and " ++
       "\x27end_date\x27 keys"))

/-- The `funnel_breakdown` argument (a dict read at one key). -/
structure BreakdownArg where
  breakdown_dimension : Option String
  deriving DecidableEq, Repr

/-- The `funnel_next_action` argument (a dict read at two keys). -/
structure NextActionArg where
  next_action_dimension : Option String
  limit : Option Int
  deriving DecidableEq, Repr

/-- The built `RunFunnelReportRequest`, over opaque filter payloads `δ`
and segment payloads `ω`. -/
structure RunFunnelReportRequest (δ ω : Type) where
  property : List Char
  funnel : List (FunnelStep δ)
  date_ranges : List (String × String)
  return_property_quota : Bool
  funnel_breakdown : Option String
  funnel_next_action : Option (String × Option Int)
  segments : List ω

/-- `if not date_ranges: date_ranges = [{...default...}]` — an absent or
empty list is replaced by the 30-day default range. -/
def effective_date_ranges : Option (List DateRangeArg) → List DateRangeArg
  | none => [.dict (some "30daysAgo") (some "today")]
  | some [] => [.dict (some "30daysAgo") (some "today")]
  | some l => l

/-- The request's breakdown dimension: set only when `funnel_breakdown`
is truthy and has the `breakdown_dimension` key. -/
def breakdownField (funnel_breakdown : Option BreakdownArg) : Option String :=
  funnel_breakdown.bind (fun b => b.breakdown_dimension)

/-- The request's next-action configuration: set only when
`funnel_next_action` is truthy and has the `next_action_dimension` key;
the optional `limit` is attached when present. -/
def nextActionField (funnel_next_action : Option NextActionArg) :
    Option (String × Option Int) :=
  match funnel_next_action with
  | some na =>
    match na.next_action_dimension with
    | some d => some (d, na.limit)
    | none => none
  | none => none

/-- Embedding of `run_funnel_report` up to (and excluding) the API call:
the validations run in source order — step count, per-step shape,
date-range shape, then the property reference. -/
def run_funnel_report_build (property_id : PropertyValue)
    (funnel_steps : List (StepArg δ))
    (date_ranges : Option (List DateRangeArg))
    (funnel_breakdown : Option BreakdownArg)
    (funnel_next_action : Option NextActionArg)
    (segments : Option (List ω))
    (return_property_quota : Bool) :
    Except PyError (RunFunnelReportRequest δ ω) :=
  if funnel_steps.isEmpty then
    .error (.valueError "funnel_steps cannot be empty")
  else if funnel_steps.length < 2 then
    .error (.valueError "funnel_steps must contain at least 2 steps")
  else
    match build_funnel_steps funnel_steps 0 with
    | .error e => .error e
    | .ok steps =>
      match build_date_ranges (effective_date_ranges date_ranges) with
      | .error e => .error e
      | .ok dro =>
        match construct_property_rn property_id with
        | .error e => .error e
        | .ok prop =>
          .ok { property := prop
                funnel := steps
                date_ranges := dro
                return_property_quota := return_property_quota
                funnel_breakdown := breakdownField funnel_breakdown
                funnel_next_action := nextActionField funnel_next_action
                segments := segments.getD [] }

/-- A step that passes the per-step validation: a dict carrying a
`filter_expression` or an `event` key. -/
def stepValid : StepArg δ → Bool
  | .dict d => d.filter_expression.isSome || d.event.isSome
  | .nonDict => false

/-- A date range that passes validation: a dict with both keys. -/
def dateRangeValid : DateRangeArg → Bool
  | .dict (some _) (some _) => true
  | _ => false

/-- The `FunnelStep` a valid step dict at 0-based index `i` builds. -/
def expected_step (i : Nat) (d : FunnelStepInput δ) : FunnelStep δ :=
  { name := d.name.getD ("Step " ++ natStr (i + 1))
    filter_expression :=
      match d.filter_expression with
      | some fe => .provided fe
      | none => .funnelEventFilter (d.event.getD "") }

/-- The step list a list of valid steps builds, starting at index `i`
(non-dict entries are skipped here; they never occur for valid input). -/
def expected_steps : List (StepArg δ) → Nat → List (FunnelStep δ)
  | [], _ => []
  | .dict d :: rest, i => expected_step i d :: expected_steps rest (i + 1)
  | .nonDict :: rest, i => expected_steps rest (i + 1)

/-! ## OAuth refresh behaviour (analytics_mcp/auth.py and
analytics_mcp/tools/utils.py)

Both files define `_try_oauth_authentication`. After the `Credentials`
object has been constructed from the config file, each decides whether to
refresh and what to do when the refresh raises; that decision block is
embedded here. `credsExpired` stands for the external
`credentials.expired` property, `now` for the current unix time, and the
`refresh(Request())` call's result is an explicit outcome. The second
component of each result records the `_update_config_file` write, if
any. -/

/-- The credential record constructed from the config file. -/
structure CredRecord where
  token : String
  refresh_token : String
  client_id : String
  client_secret : String
  expiry : Option Int
  deriving DecidableEq, Repr

/-- Result of `credentials.refresh(Request())`. -/
inductive RefreshOutcome where
  | success (newToken : String) (newExpiresAt : Int)
  | failure (msg : String)
  deriving DecidableEq, Repr

/-- `auth.py`'s `should_refresh` computation: `not expires_at or
credentials.expired`, overridden by the 5-minute-lookahead check when
`expires_at` is truthy and the credentials are not expired. -/
def authShouldRefresh (expires_at : Option Int) (credsExpired : Bool)
    (now : Int) : Bool :=
  match expires_at with
  | none => true
  | some e =>
    if e = 0 then true
    else if credsExpired then true
    else decide (e - now < 300)

/-- The refresh block of `auth.py._try_oauth_authentication` (under
`if refresh_token:`): on a refresh failure the exception is swallowed and
the stale record is returned. -/
def auth_refresh_step (creds : CredRecord) (expires_at : Option Int)
    (credsExpired : Bool) (now : Int) (refresh : RefreshOutcome) :
    CredRecord × Option (String × Int) :=
  if creds.refresh_token ≠ "" then
    if authShouldRefresh expires_at credsExpired now then
      match refresh with
      | .success t e => ({ creds with token := t, expiry := some e }, some (t, e))
      | .failure _ => (creds, none)
    else (creds, none)
  else (creds, none)

/-- The refresh block of `tools/utils.py._try_oauth_authentication`:
refresh is attempted when `not expires_at or credentials.expired`; on a
refresh failure the function returns `None` (no credentials), so the
caller falls back to Application Default Credentials. -/
def utils_refresh_step (creds : CredRecord) (expires_at : Option Int)
    (credsExpired : Bool) (refresh : RefreshOutcome) :
    Option CredRecord × Option (String × Int) :=
  if expires_at.getD 0 = 0 || credsExpired then
    match refresh with
    | .success t e =>
      (some { creds with token := t, expiry := some e }, some (t, e))
    | .failure _ => (none, none)
  else (some creds, none)

/-! ## `_update_config_file` (same function in auth.py and
tools/utils.py)

The config file is a JSON document; `json.load`/`json.dump` round-trip is
the identity on the embedded value, so persisting-then-reloading is
modelled by the updated document itself. Python dict assignment replaces
the value at an existing key in place (insertion order preserved) or
appends a fresh key. -/

/-- A JSON value with insertion-ordered object fields. -/
inductive JVal where
  | jstr (s : String)
  | jint (n : Int)
  | jbool (b : Bool)
  | jnull
  | jobj (fields : List (String × JVal))
  | jarr (elems : List JVal)

/-- `d[k]` lookup on an object's field list. -/
def jLookup (k : String) : List (String × JVal) → Option JVal
  | [] => none
  | (k', v) :: rest => if k' = k then some v else jLookup k rest

/-- `d[k] = v` on an object's field list. -/
def jSet (k : String) (v : JVal) : List (String × JVal) → List (String × JVal)
  | [] => [(k, v)]
  | (k', v') :: rest =>
    if k' = k then (k, v) :: rest else (k', v') :: jSet k v rest

/-- Embedding of `_update_config_file`: rewrite `accessToken` then
`expiresAt` under `googleAnalyticsTokens`. Any exception (missing key,
non-object value) is caught and logged, leaving the file unchanged. -/
def update_config_file (config : JVal) (new_access_token : String)
    (expires_at : Int) : JVal :=
  match config with
  | .jobj fields =>
    match jLookup "googleAnalyticsTokens" fields with
    | some (.jobj tf) =>
      .jobj (jSet "googleAnalyticsTokens"
        (.jobj (jSet "expiresAt" (.jint expires_at)
          (jSet "accessToken" (.jstr new_access_token) tf))) fields)
    | _ => config
  | _ => config

/-! ## Helper lemmas: decimal rendering and parsing -/

theorem natToCharsAux_eq :
    ∀ (n fuel : Nat), n < fuel → natToCharsAux fuel n = natToChars n := by
  intro n
  induction n using Nat.strong_induction_on with
  | _ n ih =>
    intro fuel hf
    match fuel, hf with
    | fuel + 1, _ =>
      by_cases h10 : n < 10
      · simp [natToCharsAux, natToChars, h10]
      · have hdiv : n / 10 < n := Nat.div_lt_self (by omega) (by omega)
        have e1 : natToCharsAux (fuel + 1) n =
            natToCharsAux fuel (n / 10) ++ [decChar (n % 10)] := by
          simp [natToCharsAux, h10]
        have e2 : natToChars n =
            natToCharsAux n (n / 10) ++ [decChar (n % 10)] := by
          simp [natToChars, natToCharsAux, h10]
        rw [e1, e2, ih (n / 10) hdiv fuel (by omega),
          ih (n / 10) hdiv n (by omega)]

theorem natToChars_lt10 {n : Nat} (h : n < 10) : natToChars n = [decChar n] := by
  simp [natToChars, natToCharsAux, h]

theorem natToChars_ge10 {n : Nat} (h : 10 ≤ n) :
    natToChars n = natToChars (n / 10) ++ [decChar (n % 10)] := by
  have hdiv : n / 10 < n := Nat.div_lt_self (by omega) (by omega)
  have e2 : natToChars n = natToCharsAux n (n / 10) ++ [decChar (n % 10)] := by
    simp [natToChars, natToCharsAux, Nat.not_lt.2 h]
  rw [e2, natToCharsAux_eq _ _ hdiv]

theorem decChar_toNat {d : Nat} (h : d < 10) : (decChar d).toNat = 48 + d := by
  interval_cases d <;> rfl

theorem decChar_isDigit {d : Nat} (h : d < 10) : (decChar d).isDigit = true := by
  interval_cases d <;> decide

theorem pyDigitsToNat_append_one (l : List Char) (c : Char) :
    pyDigitsToNat (l ++ [c]) = 10 * pyDigitsToNat l + (c.toNat - 48) := by
  simp [pyDigitsToNat, List.foldl_append]

theorem pyDigitsToNat_natToChars : ∀ n : Nat, pyDigitsToNat (natToChars n) = n := by
  intro n
  induction n using Nat.strong_induction_on with
  | _ n ih =>
    by_cases h10 : n < 10
    · rw [natToChars_lt10 h10]
      simp [pyDigitsToNat, decChar_toNat h10]
    · have hdiv : n / 10 < n := Nat.div_lt_self (by omega) (by omega)
      rw [natToChars_ge10 (by omega), pyDigitsToNat_append_one, ih _ hdiv,
        decChar_toNat (Nat.mod_lt _ (by omega))]
      omega

theorem natToChars_all_digits : ∀ n : Nat, (natToChars n).all Char.isDigit = true := by
  intro n
  induction n using Nat.strong_induction_on with
  | _ n ih =>
    by_cases h10 : n < 10
    · rw [natToChars_lt10 h10]
      simp [decChar_isDigit h10]
    · have hdiv : n / 10 < n := Nat.div_lt_self (by omega) (by omega)
      rw [natToChars_ge10 (by omega), List.all_append]
      simp [ih _ hdiv, decChar_isDigit (Nat.mod_lt _ (by omega))]

theorem natToChars_ne_nil (n : Nat) : natToChars n ≠ [] := by
  by_cases h10 : n < 10
  · rw [natToChars_lt10 h10]; simp
  · rw [natToChars_ge10 (by omega)]; simp

/-! ## Helper lemmas: character classes and stripping -/

theorem digit_not_ws {c : Char} (h : c.isDigit = true) : c.isWhitespace = false := by
  cases hww : c.isWhitespace
  · rfl
  · exfalso
    simp [Char.isWhitespace] at hww
    rcases hww with ((hw | hw) | hw) | hw <;> subst hw <;>
      exact absurd h (by decide)

theorem digit_ne_slash {c : Char} (h : c.isDigit = true) : c ≠ '/' := by
  intro he
  subst he
  simp at h

theorem pyStrip_props (ds : List Char) (h1 : ds ≠ [])
    (h2 : ds.all Char.isDigit = true) :
    pyStrip ("properties/".data ++ ds) = "properties/".data ++ ds := by
  have hcons : "properties/".data ++ ds = 'p' :: ("roperties/".data ++ ds) := rfl
  have hdrop1 : ("properties/".data ++ ds).dropWhile Char.isWhitespace =
      "properties/".data ++ ds := by
    rw [hcons, List.dropWhile_cons]
    simp
  cases hr : ds.reverse with
  | nil => exact absurd (List.reverse_eq_nil_iff.mp hr) h1
  | cons c t =>
    have hcmem : c ∈ ds := List.mem_reverse.mp (hr ▸ List.mem_cons_self c t)
    have hcd : c.isDigit = true := by
      have := List.all_eq_true.mp h2 c hcmem
      simpa using this
    have hcw : c.isWhitespace = false := digit_not_ws hcd
    have hrev : ("properties/".data ++ ds).reverse =
        c :: (t ++ "properties/".data.reverse) := by
      rw [List.reverse_append, hr, List.cons_append]
    show ((("properties/".data ++ ds).dropWhile
        Char.isWhitespace).reverse.dropWhile Char.isWhitespace).reverse =
      "properties/".data ++ ds
    rw [hdrop1, hrev, List.dropWhile_cons, hcw]
    simp only [Bool.false_eq_true, if_false]
    rw [← hrev, List.reverse_reverse]

theorem pyIsDigit_props (ds : List Char) :
    pyIsDigit ("properties/".data ++ ds) = false := by
  have hcons : "properties/".data ++ ds = 'p' :: ("roperties/".data ++ ds) := rfl
  rw [pyIsDigit, hcons]
  simp

theorem splitSlashAux_no_slash :
    ∀ (ds acc : List Char), (∀ c ∈ ds, c ≠ '/') →
      splitSlashAux ds acc = [acc.reverse ++ ds] := by
  intro ds
  induction ds with
  | nil => intro acc _; simp [splitSlashAux]
  | cons c rest ih =>
    intro acc h
    have hc : c ≠ '/' := h c (List.mem_cons_self c rest)
    rw [splitSlashAux, if_neg hc, ih (c :: acc) (fun x hx => h x (List.mem_cons_of_mem c hx))]
    simp

theorem splitSlash_props (ds : List Char) (h : ∀ c ∈ ds, c ≠ '/') :
    splitSlash ("properties/".data ++ ds) = ["properties".data, ds] := by
  have hpre : splitSlashAux ("properties/".data ++ ds) [] =
      "properties".data :: splitSlashAux ds [] := rfl
  rw [splitSlash, hpre, splitSlashAux_no_slash ds [] h]
  rfl

/-! ## C5 / C6: `construct_property_rn` canonicalization -/

/-- C5 (counterexample): the claim says a `"properties/<digits>"` input
comes back as the identical string, but `construct_property_rn` parses
the digits with `int(...)` and re-renders them, so
`"properties/007"` yields `"properties/7"`, not the identical string. -/
theorem c5_counterexample_leading_zeros :
    construct_property_rn (.str "properties/007".data) =
      .ok ("properties/7".data) ∧
    "properties/7".data ≠ "properties/007".data :=
  ⟨rfl, by decide⟩

/-- C5 (amended): for every integer input the result is `"properties/"`
followed by the decimal rendering of the integer; for every
whitespace-padded numeric string the result is `"properties/"` followed
by the decimal rendering of its integer value; and a
`"properties/<digits>"` input yields `"properties/"` followed by the
decimal rendering of `int(<digits>)` (the identical string unless the
digits carry leading zeros). -/
theorem c5_construct_property_rn_canonicalizes :
    (∀ n : Int,
      construct_property_rn (.int n) = .ok ("properties/".data ++ intToChars n))
    ∧ (∀ s : List Char, pyIsDigit (pyStrip s) = true →
      construct_property_rn (.str s) =
        .ok ("properties/".data ++ natToChars (pyDigitsToNat (pyStrip s))))
    ∧ (∀ ds : List Char, ds ≠ [] → ds.all Char.isDigit = true →
      construct_property_rn (.str ("properties/".data ++ ds)) =
        .ok ("properties/".data ++ natToChars (pyDigitsToNat ds))) := by
  refine ⟨fun n => rfl, fun s h => ?_, fun ds h1 h2 => ?_⟩
  · simp only [construct_property_rn]
    rw [if_pos h]
  · have hnoslash : ∀ c ∈ ds, c ≠ '/' := fun c hc =>
      digit_ne_slash (by simpa using List.all_eq_true.mp h2 c hc)
    have hstrip := pyStrip_props ds h1 h2
    have hdig : pyIsDigit ds = true := by
      simp [pyIsDigit, List.isEmpty_iff, h1, h2]
    simp only [construct_property_rn]
    rw [hstrip, if_neg (by simpa using pyIsDigit_props ds),
      if_pos (List.isPrefixOf_iff_prefix.mpr (List.prefix_append _ _))]
    rw [splitSlash_props ds hnoslash]
    simp only [List.getLastD_cons, List.getLastD_nil]
    rw [if_pos hdig]

/-- C5 (witness): the amended theorem evaluated at a padded numeric
string and at a canonical `"properties/<digits>"` string. -/
theorem c5_witness :
    construct_property_rn (.str "  42 ".data) = .ok ("properties/42".data) ∧
    construct_property_rn (.str "properties/99".data) =
      .ok ("properties/99".data) := by
  constructor
  · have h := c5_construct_property_rn_canonicalizes.2.1 "  42 ".data (by decide)
    exact h.trans (congrArg Except.ok (by decide))
  · have h := c5_construct_property_rn_canonicalizes.2.2 "99".data
      (by decide) (by decide)
    exact h.trans (congrArg Except.ok (by decide))

/-- C6 (counterexample): the claim says every negative input fails with
a `ValueError`, but an integer input is accepted unconditionally:
`construct_property_rn(-1)` returns the string `properties` + `/` + `-1`
rather than raising. -/
theorem c6_counterexample_negative_int :
    construct_property_rn (.int (-1)) = .ok ("properties/-1".data) ∧
    ∀ e, construct_property_rn (.int (-1)) ≠ .error e := by
  refine ⟨rfl, fun e h => ?_⟩
  rw [show construct_property_rn (.int (-1)) = .ok ("properties/-1".data)
    from rfl] at h
  exact Except.noConfusion h

/-- C6 (amended): every STRING input whose stripped form is not all
digits and does not both start with `"properties/"` and end in an
all-digit final `/`-segment fails with a `ValueError`; integer inputs
(including negatives) never fail. -/
theorem c6_construct_property_rn_rejects :
    (∀ s : List Char,
      pyIsDigit (pyStrip s) = false →
      ("properties/".data.isPrefixOf (pyStrip s) = false ∨
        pyIsDigit ((splitSlash (pyStrip s)).getLastD []) = false) →
      construct_property_rn (.str s) =
        .error (.valueError (invalidPropertyMsg (pyStrip s))))
    ∧ (∀ n : Int, ∃ out, construct_property_rn (.int n) = .ok out) := by
  refine ⟨fun s h1 h2 => ?_, fun n => ⟨_, rfl⟩⟩
  simp only [construct_property_rn]
  rw [if_neg (by simp [h1])]
  rcases h2 with h2 | h2
  · rw [if_neg (by simp [h2])]
  · cases hp : "properties/".data.isPrefixOf (pyStrip s)
    · rw [if_neg (by simp)]
    · rw [if_pos rfl, if_neg (by simp only [Bool.not_eq_true]; exact h2)]

/-- C6 (witness): the amended theorem evaluated at a non-numeric string,
an empty string, a negative numeric string and a decimal string. -/
theorem c6_witness :
    construct_property_rn (.str "abc".data) =
      .error (.valueError (invalidPropertyMsg "abc".data)) ∧
    construct_property_rn (.str "".data) =
      .error (.valueError (invalidPropertyMsg "".data)) ∧
    construct_property_rn (.str "-5".data) =
      .error (.valueError (invalidPropertyMsg "-5".data)) ∧
    construct_property_rn (.str "5.0".data) =
      .error (.valueError (invalidPropertyMsg "5.0".data)) := by
  refine ⟨?_, ?_, ?_, ?_⟩ <;>
    exact (c6_construct_property_rn_rejects.1 _ (by decide) (by decide)).trans
      (by decide)

/-! ## C1: the auth-retry wrapper -/

/-- C1: with `max_retries = 1`, an operation that first raises an
`Unauthenticated`/`Forbidden` exception with a 401-flavoured message and
then succeeds makes the wrapper return the success value after exactly
one cache invalidation; an operation that raises any non-auth exception
propagates that exception from the first attempt with no invalidation
and no retry (the result does not depend on any later attempt). -/
theorem c1_retry_on_auth_error (α : Type) (op : Nat → Outcome α) (v : α)
    (msg msg2 : String) :
    (op 0 = .raise (.unauthenticatedOrForbidden msg) →
      isAuthErrorMsg msg = true →
      op 1 = .success v →
      retry_on_auth_error op 1 = (.ok v, 1))
    ∧ (op 0 = .raise (.other msg2) →
      retry_on_auth_error op 1 = (.error (.other msg2), 0)) := by
  constructor
  · intro h0 hk h1
    simp [retry_on_auth_error, retryAux, h0, hk, h1]
  · intro h0
    simp [retry_on_auth_error, retryAux, h0]

/-- C1 (witness): the theorem evaluated at an operation raising a `401
Unauthorized` error once, and at an operation always raising a
`TypeError`-like non-auth exception. -/
theorem c1_witness :
    retry_on_auth_error
      (fun n => if n = 0 then
        Outcome.raise (.unauthenticatedOrForbidden "401 Unauthorized")
        else Outcome.success 7) 1 = (.ok 7, 1)
    ∧ retry_on_auth_error
        (fun _ => (Outcome.raise (.other "boom") : Outcome Nat)) 1 =
      (.error (.other "boom"), 0) :=
  ⟨(c1_retry_on_auth_error Nat _ 7 "401 Unauthorized" "").1 rfl (by decide) rfl,
   (c1_retry_on_auth_error Nat _ 0 "" "boom").2 rfl⟩

/-! ## Helper lemmas: quota scan -/

/-- The float comparison of one bucket, expressed over the integer
counters by cross-multiplication. -/
theorem bucketTriggers_eq (c r : Nat) :
    bucketTriggers c r = (decide (0 < c + r) && decide (9 * (c + r) < 10 * c)) := by
  rw [bucketTriggers]
  by_cases h : 0 < c + r
  · simp only [h, decide_True, Bool.true_and]
    rw [decide_eq_decide]
    have hpos : (0 : ℚ) < (c : ℚ) + (r : ℚ) := by exact_mod_cast h
    rw [div_lt_div_iff₀ (by norm_num) hpos]
    constructor
    · intro h'
      have hq : ((9 * (c + r) : ℕ) : ℚ) < ((10 * c : ℕ) : ℚ) := by
        push_cast
        linarith
      exact_mod_cast hq
    · intro h'
      have hq : ((9 * (c + r) : ℕ) : ℚ) < ((10 * c : ℕ) : ℚ) := by
        exact_mod_cast h'
      push_cast at hq
      linarith
  · simp [h]

theorem quota_warning_scan_cons_notrigger {e : String × QuotaVal}
    (l : List (String × QuotaVal)) (h : entryTriggers e = false) :
    quota_warning_scan (e :: l) = quota_warning_scan l := by
  rcases e with ⟨n, v⟩
  match v with
  | .dictVal (some c) (some r) =>
    have hb : bucketTriggers c r = false := by simpa [entryTriggers] using h
    simp [quota_warning_scan, hb]
  | .dictVal (some c) none => simp [quota_warning_scan]
  | .dictVal none or => simp [quota_warning_scan]
  | .nonDict => simp [quota_warning_scan]

theorem quota_warning_scan_isSome (qd : List (String × QuotaVal)) :
    (quota_warning_scan qd).isSome = qd.any entryTriggers := by
  induction qd with
  | nil => simp [quota_warning_scan]
  | cons e rest ih =>
    cases ht : entryTriggers e
    · rw [quota_warning_scan_cons_notrigger rest ht, ih]
      simp [ht]
    · rcases e with ⟨n, v⟩
      match v with
      | .dictVal (some c) (some r) =>
        have hb : bucketTriggers c r = true := by simpa [entryTriggers] using ht
        simp only [quota_warning_scan, hb, if_true, Option.isSome_some,
          List.any_cons, ht, Bool.true_or]
      | .dictVal (some c) none => simp [entryTriggers] at ht
      | .dictVal none or => simp [entryTriggers] at ht
      | .nonDict => simp [entryTriggers] at ht

theorem quota_warning_scan_append_notrigger
    {pre : List (String × QuotaVal)} (l : List (String × QuotaVal))
    (h : ∀ e ∈ pre, entryTriggers e = false) :
    quota_warning_scan (pre ++ l) = quota_warning_scan l := by
  induction pre with
  | nil => simp
  | cons e rest ih =>
    rw [List.cons_append,
      quota_warning_scan_cons_notrigger _ (h e (List.mem_cons_self e rest)),
      ih (fun x hx => h x (List.mem_cons_of_mem e hx))]

/-! ## C2: the quota warning threshold -/

/-- C2: the realtime result carries a `quota_warning` iff some bucket of
the quota structure has both counters, a positive total, and
`consumed / (consumed + remaining)` strictly above 0.9; a bucket at
exactly 0.9 never triggers, and zero-total buckets are skipped rather
than dividing by zero. -/
theorem c2_quota_warning_iff (rpq : Bool) (qd : List (String × QuotaVal)) :
    (realtime_quota_output rpq (some qd)).2.isSome = true ↔
      ∃ (name : String) (c r : Nat),
        (name, QuotaVal.dictVal (some c) (some r)) ∈ qd ∧
        0 < c + r ∧ (9 : ℚ) / 10 < (c : ℚ) / ((c : ℚ) + (r : ℚ)) := by
  have hsnd : (realtime_quota_output rpq (some qd)).2.isSome =
      (quota_warning_scan qd).isSome := by
    cases hw : quota_warning_scan qd
    · cases rpq <;> simp [realtime_quota_output, hw]
    · cases rpq <;> simp [realtime_quota_output, hw]
  rw [hsnd, quota_warning_scan_isSome, List.any_eq_true]
  constructor
  · rintro ⟨⟨name, val⟩, hmem, htrig⟩
    match val with
    | .dictVal (some c) (some r) =>
      have hb : bucketTriggers c r = true := by simpa [entryTriggers] using htrig
      rw [bucketTriggers, Bool.and_eq_true, decide_eq_true_iff, decide_eq_true_iff]
        at hb
      exact ⟨name, c, r, hmem, hb.1, hb.2⟩
    | .dictVal (some c) none => simp [entryTriggers] at htrig
    | .dictVal none or => simp [entryTriggers] at htrig
    | .nonDict => simp [entryTriggers] at htrig
  · rintro ⟨name, c, r, hmem, hpos, hgt⟩
    refine ⟨(name, .dictVal (some c) (some r)), hmem, ?_⟩
    simp only [entryTriggers, bucketTriggers, Bool.and_eq_true,
      decide_eq_true_iff]
    exact ⟨hpos, hgt⟩

/-- C2 (witness): the iff evaluated at a structure whose only bucket is
at exactly 90% (no warning), and at one with a bucket above 90%. -/
theorem c2_witness :
    (realtime_quota_output false
      (some [("tokensPerDay", .dictVal (some 9000) (some 1000))])).2.isSome = false
    ∧ (realtime_quota_output false
      (some [("tokensPerDay", .dictVal (some 9001) (some 999))])).2.isSome = true := by
  constructor
  · cases hb : (realtime_quota_output false
      (some [("tokensPerDay", QuotaVal.dictVal (some 9000) (some 1000))])).2.isSome
    · rfl
    · exfalso
      obtain ⟨name, c, r, hmem, hpos, hgt⟩ :=
        (c2_quota_warning_iff false
          [("tokensPerDay", .dictVal (some 9000) (some 1000))]).mp hb
      simp only [List.mem_singleton, Prod.mk.injEq] at hmem
      obtain ⟨hn, hv⟩ := hmem
      injection hv with hv1 hv2
      injection hv1 with hc
      injection hv2 with hr
      subst hc
      subst hr
      rw [show ((9000 : ℕ) : ℚ) / ((9000 : ℕ) + (1000 : ℕ)) = 9 / 10 by
        push_cast
        norm_num] at hgt
      exact lt_irrefl _ hgt
  · exact (c2_quota_warning_iff false
      [("tokensPerDay", .dictVal (some 9001) (some 999))]).mpr
      ⟨"tokensPerDay", 9001, 999, List.mem_singleton.mpr rfl, by norm_num,
        by rw [show ((9001 : ℕ) : ℚ) / ((9001 : ℕ) + (999 : ℕ)) =
            9001 / 10000 by push_cast; norm_num]
           norm_num⟩

/-! ## C3: quota block inclusion and warning format -/

/-- C3: the result's `quota` entry is the full quota dict exactly when
`return_property_quota` is true or a warning was triggered, and is absent
otherwise; and when the quota structure decomposes as a non-triggering
prefix followed by a triggering bucket, the scan stops there and the
warning is the formatted string for that bucket, whatever follows it. -/
theorem c3_quota_block_and_warning_format :
    (∀ (rpq : Bool) (qd : List (String × QuotaVal)),
      (realtime_quota_output rpq (some qd)).1 =
        if rpq || (quota_warning_scan qd).isSome then some qd else none)
    ∧ (∀ (rpq : Bool) (pre post : List (String × QuotaVal)) (name : String)
        (c r : Nat),
      (∀ e ∈ pre, entryTriggers e = false) →
      bucketTriggers c r = true →
      (realtime_quota_output rpq
        (some (pre ++ (name, .dictVal (some c) (some r)) :: post))).2 =
        some (quotaWarningString name c (c + r))) := by
  constructor
  · intro rpq qd
    simp only [realtime_quota_output]
    cases hcond : (rpq || (quota_warning_scan qd).isSome) <;> simp [hcond]
  · intro rpq pre post name c r hpre htrig
    have hscan : quota_warning_scan
        (pre ++ (name, QuotaVal.dictVal (some c) (some r)) :: post) =
        some (quotaWarningString name c (c + r)) := by
      rw [quota_warning_scan_append_notrigger _ hpre]
      simp [quota_warning_scan, htrig]
    simp [realtime_quota_output, hscan]

/-- C3 (witness): the inclusion rule evaluated with the flag off and no
warning (quota absent), and the warning format evaluated on a structure
whose second bucket is the first to exceed the threshold: the emitted
string is exactly the f-string of the source. -/
theorem c3_witness :
    (realtime_quota_output false
      (some [("tokensPerDay", .dictVal (some 1) (some 9))])).1 = none
    ∧ (realtime_quota_output false
        (some [("tokensPerDay", .dictVal (some 1) (some 9)),
               ("tokensPerHour", .dictVal (some 95) (some 5)),
               ("tokensPerMinute", .dictVal (some 100) (some 0))])).2 =
      some "WARNING: tokensPerHour is at 95.0% (95/100). Approaching quota limit." := by
  constructor
  · have h := c3_quota_block_and_warning_format.1 false
      [("tokensPerDay", .dictVal (some 1) (some 9))]
    rw [h]
    have hs : quota_warning_scan
        [("tokensPerDay", QuotaVal.dictVal (some 1) (some 9))] = none := by
      simp only [quota_warning_scan, bucketTriggers_eq]
      decide
    rw [hs]
    rfl
  · have h := c3_quota_block_and_warning_format.2 false
      [("tokensPerDay", .dictVal (some 1) (some 9))]
      [("tokensPerMinute", .dictVal (some 100) (some 0))]
      "tokensPerHour" 95 5
      (by
        intro e he
        simp only [List.mem_singleton] at he
        subst he
        simp only [entryTriggers, bucketTriggers_eq]
        decide)
      (by rw [bucketTriggers_eq]; decide)
    exact h.trans (by decide)

/-! ## C10: the realtime request always asks for quota -/

/-- C10: the realtime request sent to the backend sets
`return_property_quota=True` unconditionally (the builder does not even
consult the tool's argument), and the tool's argument only gates whether
the quota block appears in the output. -/
theorem c10_realtime_request_always_requests_quota (φ ω : Type) :
    (∀ (pid : List Char) (dims mets : List String)
      (df mf : Option φ) (ob : Option (List ω)) (lim : Int)
      (req : RunRealtimeReportRequest φ ω),
      run_realtime_report_request pid dims mets df mf ob lim = .ok req →
      req.return_property_quota = true)
    ∧ (∀ (rpq : Bool) (qd : List (String × QuotaVal)),
      (realtime_quota_output rpq (some qd)).1.isSome = true ↔
        (rpq = true ∨ (quota_warning_scan qd).isSome = true)) := by
  constructor
  · intro pid dims mets df mf ob lim req h
    cases hc : construct_property_rn (.str pid) with
    | error e => simp [run_realtime_report_request, hc, Except.map] at h
    | ok prop =>
      simp only [run_realtime_report_request, hc, Except.map] at h
      injection h with h
      rw [← h]
  · intro rpq qd
    cases hw : quota_warning_scan qd <;>
      cases rpq <;> simp [realtime_quota_output, hw]

/-- C10 (witness): the builder evaluated at a concrete call; the built
request carries `return_property_quota = true` even though the tool-level
argument is only consulted for the output gate. -/
theorem c10_witness :
    run_realtime_report_request "123".data ["city"] ["activeUsers"]
        (none : Option Unit) none (none : Option (List Unit)) 100 =
      .ok { property := "properties/123".data
            dimensions := ["city"]
            metrics := ["activeUsers"]
            return_property_quota := true
            dimension_filter := none
            metric_filter := none
            order_bys := []
            limit := some 100 }
    ∧ ({ property := "properties/123".data
         dimensions := ["city"]
         metrics := ["activeUsers"]
         return_property_quota := true
         dimension_filter := none
         metric_filter := none
         order_bys := []
         limit := some 100 } :
        RunRealtimeReportRequest Unit Unit).return_property_quota = true :=
  ⟨rfl,
   (c10_realtime_request_always_requests_quota Unit Unit).1
     "123".data ["city"] ["activeUsers"] none none none 100 _ rfl⟩

/-! ## Helper lemmas: funnel step construction -/

theorem build_funnel_steps_ok {δ : Type} :
    ∀ (steps : List (StepArg δ)) (i : Nat), steps.all stepValid = true →
      build_funnel_steps steps i = .ok (expected_steps steps i) := by
  intro steps
  induction steps with
  | nil => intro i _; rfl
  | cons s rest ih =>
    intro i hall
    rw [List.all_cons, Bool.and_eq_true] at hall
    match s with
    | .nonDict => simp [stepValid] at hall
    | .dict d =>
      match hfe : d.filter_expression with
      | some fe =>
        simp [build_funnel_steps, hfe, ih (i + 1) hall.2, Except.map,
          expected_steps, expected_step]
      | none =>
        match hev : d.event with
        | some e =>
          simp [build_funnel_steps, hfe, hev, ih (i + 1) hall.2, Except.map,
            expected_steps, expected_step]
        | none =>
          rw [stepValid] at hall
          simp [hfe, hev] at hall

theorem expected_steps_length {δ : Type} :
    ∀ (steps : List (StepArg δ)) (i : Nat), steps.all stepValid = true →
      (expected_steps steps i).length = steps.length := by
  intro steps
  induction steps with
  | nil => intro i _; rfl
  | cons s rest ih =>
    intro i hall
    rw [List.all_cons, Bool.and_eq_true] at hall
    match s with
    | .nonDict => simp [stepValid] at hall
    | .dict d => simp [expected_steps, ih (i + 1) hall.2]

theorem build_funnel_steps_neither_key {δ : Type} :
    ∀ (pre : List (StepArg δ)) (i : Nat) (nm : Option String)
      (post : List (StepArg δ)), pre.all stepValid = true →
      build_funnel_steps (pre ++ .dict ⟨nm, none, none⟩ :: post) i =
        .error (.valueError (stepNeitherKeyMsg (i + pre.length))) := by
  intro pre
  induction pre with
  | nil => intro i nm post _; rfl
  | cons s rest ih =>
    intro i nm post hall
    rw [List.all_cons, Bool.and_eq_true] at hall
    have hlen : i + 1 + rest.length = i + (s :: rest).length := by
      simp
      omega
    match s with
    | .nonDict => simp [stepValid] at hall
    | .dict d =>
      match hfe : d.filter_expression with
      | some fe =>
        rw [List.cons_append]
        simp [build_funnel_steps, hfe, ih (i + 1) nm post hall.2, hlen,
          Except.map]
      | none =>
        match hev : d.event with
        | some e =>
          rw [List.cons_append]
          simp [build_funnel_steps, hfe, hev, ih (i + 1) nm post hall.2,
            hlen, Except.map]
        | none =>
          rw [stepValid] at hall
          simp [hfe, hev] at hall

theorem expected_steps_get {δ : Type} :
    ∀ (pre : List (StepArg δ)) (i : Nat) (d : FunnelStepInput δ)
      (post : List (StepArg δ)), pre.all stepValid = true →
      (expected_steps (pre ++ .dict d :: post) i).get? pre.length =
        some (expected_step (i + pre.length) d) := by
  intro pre
  induction pre with
  | nil => intro i d post _; rfl
  | cons s rest ih =>
    intro i d post hall
    rw [List.all_cons, Bool.and_eq_true] at hall
    match s with
    | .nonDict => simp [stepValid] at hall
    | .dict d' =>
      rw [List.cons_append]
      show (expected_step i d' ::
        expected_steps (rest ++ .dict d :: post) (i + 1)).get?
          (rest.length + 1) = _
      rw [List.get?_cons_succ, ih (i + 1) d post hall.2]
      have : i + 1 + rest.length = i + (rest.length + 1) := by omega
      rw [this]
      rfl

/-! ## C7: funnel step-count validation and order preservation -/

/-- C7: a 0-step list fails with the "cannot be empty" `ValueError` and a
1-step list with the "at least 2 steps" `ValueError`, both before any
backend call; with 2 or more valid steps (and well-formed other
arguments) construction succeeds and the built request's funnel holds
exactly the caller's steps in the caller's order. -/
theorem c7_funnel_step_count (δ ω : Type) :
    (∀ (pid : PropertyValue) (dr : Option (List DateRangeArg))
      (fb : Option BreakdownArg) (fna : Option NextActionArg)
      (seg : Option (List ω)) (rpq : Bool),
      run_funnel_report_build pid ([] : List (StepArg δ)) dr fb fna seg rpq =
        .error (.valueError "funnel_steps cannot be empty"))
    ∧ (∀ (pid : PropertyValue) (steps : List (StepArg δ)) dr fb fna
        (seg : Option (List ω)) rpq,
      steps.length = 1 →
      run_funnel_report_build pid steps dr fb fna seg rpq =
        .error (.valueError "funnel_steps must contain at least 2 steps"))
    ∧ (∀ (pid : PropertyValue) (prop : List Char) (steps : List (StepArg δ))
        dr (drl : List (String × String)) fb fna (seg : Option (List ω)) rpq,
      2 ≤ steps.length →
      steps.all stepValid = true →
      construct_property_rn pid = .ok prop →
      build_date_ranges (effective_date_ranges dr) = .ok drl →
      run_funnel_report_build pid steps dr fb fna seg rpq =
        .ok { property := prop
              funnel := expected_steps steps 0
              date_ranges := drl
              return_property_quota := rpq
              funnel_breakdown := breakdownField fb
              funnel_next_action := nextActionField fna
              segments := seg.getD [] }
        ∧ (expected_steps steps 0).length = steps.length) := by
  refine ⟨fun pid dr fb fna seg rpq => rfl, ?_, ?_⟩
  · intro pid steps dr fb fna seg rpq hlen
    match steps, hlen with
    | [s], _ =>
      rw [run_funnel_report_build, if_neg (by simp), if_pos (by simp)]
  · intro pid prop steps dr drl fb fna seg rpq h2 hall hpid hdr
    have hne : steps.isEmpty = false := by
      match steps, h2 with
      | s :: rest, _ => rfl
    refine ⟨?_, expected_steps_length steps 0 hall⟩
    rw [run_funnel_report_build, if_neg (by simp [hne]),
      if_neg (by omega), build_funnel_steps_ok steps 0 hall, hdr, hpid]

/-- C7 (witness): a 1-step list is rejected; a 2-step list (one
event-sugar step, one full filter expression) builds the request with
both steps in the caller's order. -/
theorem c7_witness :
    run_funnel_report_build (δ := String) (ω := Unit) (.int 123)
        [.dict ⟨some "Only", none, some "page_view"⟩] none none none none
        false =
      .error (.valueError "funnel_steps must contain at least 2 steps")
    ∧ run_funnel_report_build (δ := String) (ω := Unit) (.int 123)
        [.dict ⟨some "Step A", none, some "page_view"⟩,
         .dict ⟨none, some "FILTER_EXPR", none⟩] none none none none false =
      .ok { property := "properties/123".data
            funnel := [⟨"Step A", .funnelEventFilter "page_view"⟩,
                       ⟨"Step 2", .provided "FILTER_EXPR"⟩]
            date_ranges := [("30daysAgo", "today")]
            return_property_quota := false
            funnel_breakdown := none
            funnel_next_action := none
            segments := [] } := by
  constructor
  · exact (c7_funnel_step_count String Unit).2.1 (.int 123)
      [.dict ⟨some "Only", none, some "page_view"⟩] none none none none
      false rfl
  · exact ((c7_funnel_step_count String Unit).2.2 (.int 123)
      "properties/123".data
      [.dict ⟨some "Step A", none, some "page_view"⟩,
       .dict ⟨none, some "FILTER_EXPR", none⟩] none
      [("30daysAgo", "today")] none none none false (by decide) (by decide)
      rfl rfl).1

/-! ## C8: per-step key validation and event sugar -/

/-- C8: a step dict with neither `filter_expression` nor `event` makes
construction fail with the `ValueError` naming that step (1-based); and
when an event-only step with event `e` is part of a successfully built
request, the step built at its position carries exactly the single
event-filter leaf `FunnelEventFilter(event_name = e)`. -/
theorem c8_funnel_step_keys (δ ω : Type) :
    (∀ (pid : PropertyValue) (pre post : List (StepArg δ))
      (nm : Option String) dr fb fna (seg : Option (List ω)) rpq,
      pre.all stepValid = true →
      2 ≤ (pre ++ StepArg.dict ⟨nm, none, none⟩ :: post).length →
      run_funnel_report_build pid (pre ++ .dict ⟨nm, none, none⟩ :: post)
        dr fb fna seg rpq =
        .error (.valueError (stepNeitherKeyMsg pre.length)))
    ∧ (∀ (pid : PropertyValue) (pre post : List (StepArg δ))
        (nm : Option String) (e : String) dr fb fna (seg : Option (List ω))
        rpq (req : RunFunnelReportRequest δ ω),
      (pre ++ StepArg.dict ⟨nm, none, some e⟩ :: post).all stepValid = true →
      run_funnel_report_build pid (pre ++ .dict ⟨nm, none, some e⟩ :: post)
        dr fb fna seg rpq = .ok req →
      req.funnel.get? pre.length =
        some (expected_step pre.length (⟨nm, none, some e⟩ : FunnelStepInput δ))
      ∧ (expected_step pre.length
          (⟨nm, none, some e⟩ : FunnelStepInput δ)).filter_expression =
        .funnelEventFilter e) := by
  constructor
  · intro pid pre post nm dr fb fna seg rpq hpre h2
    have hne : (pre ++ StepArg.dict ⟨nm, none, none⟩ :: post).isEmpty = false := by
      match pre with
      | [] => rfl
      | s :: rest => rfl
    have hsteps := build_funnel_steps_neither_key pre 0 nm post hpre
    rw [run_funnel_report_build, if_neg (by simp [hne]), if_neg (by omega),
      hsteps]
    simp
  · intro pid pre post nm e dr fb fna seg rpq req hall hok
    refine ⟨?_, rfl⟩
    have hfun : req.funnel =
        expected_steps (pre ++ .dict ⟨nm, none, some e⟩ :: post) 0 := by
      rw [run_funnel_report_build] at hok
      by_cases hemp : (pre ++ StepArg.dict ⟨nm, none, some e⟩ :: post).isEmpty
      · rw [if_pos hemp] at hok
        exact absurd hok (by simp)
      · rw [if_neg hemp] at hok
        by_cases hlt : (pre ++ StepArg.dict ⟨nm, none, some e⟩ :: post).length < 2
        · rw [if_pos hlt] at hok
          exact absurd hok (by simp)
        · rw [if_neg hlt,
            build_funnel_steps_ok _ 0 hall] at hok
          cases hdr : build_date_ranges (effective_date_ranges dr) with
          | error er => rw [hdr] at hok; exact absurd hok (by simp)
          | ok drl =>
            rw [hdr] at hok
            cases hpid : construct_property_rn pid with
            | error er => rw [hpid] at hok; exact absurd hok (by simp)
            | ok prop =>
              rw [hpid] at hok
              injection hok with hok
              rw [← hok]
    have hpre : pre.all stepValid = true := by
      rw [List.all_append, Bool.and_eq_true] at hall
      exact hall.1
    rw [hfun]
    have := expected_steps_get pre 0 (⟨nm, none, some e⟩ : FunnelStepInput δ)
      post hpre
    simpa using this

/-- C8 (witness): the neither-key error names step 2 for a bad second
step, and an event-only first step of a built request expands to the
event-filter leaf with that literal event name. -/
theorem c8_witness :
    run_funnel_report_build (δ := String) (ω := Unit) (.int 123)
        [.dict ⟨some "Step A", none, some "page_view"⟩,
         .dict ⟨some "Bad", none, none⟩] none none none none false =
      .error (.valueError (stepNeitherKeyMsg 1))
    ∧ ({ property := "properties/123".data
         funnel := [⟨"Step A", .funnelEventFilter "page_view"⟩,
                    ⟨"Step 2", .provided "FILTER_EXPR"⟩]
         date_ranges := [("30daysAgo", "today")]
         return_property_quota := false
         funnel_breakdown := none
         funnel_next_action := none
         segments := [] } :
        RunFunnelReportRequest String Unit).funnel.get? 0 =
      some ⟨"Step A", .funnelEventFilter "page_view"⟩ := by
  constructor
  · exact (c8_funnel_step_keys String Unit).1 (.int 123)
      [.dict ⟨some "Step A", none, some "page_view"⟩] [] (some "Bad")
      none none none none false (by decide) (by decide)
  · exact ((c8_funnel_step_keys String Unit).2 (.int 123) []
      [.dict ⟨none, some "FILTER_EXPR", none⟩] (some "Step A") "page_view"
      none none none none false _ (by decide) rfl).1

/-! ## C4: behaviour when the token refresh fails -/

/-- C4 (counterexample): the claim says the loader returns the stale
credential record when the refresh raises, but the loader in
`tools/utils.py` — the one the server's client factories call — returns
`None` on a refresh failure, so no credential record is returned at all
and the caller falls back to Application Default Credentials. -/
theorem c4_counterexample_utils_returns_none :
    (utils_refresh_step ⟨"tok", "rt", "cid", "cs", none⟩ none true
      (.failure "invalid_grant")).1 = none := rfl

/-- C4 (amended): `auth.py`'s loader swallows a refresh failure and
returns the stale record (never writing the config file); the
`tools/utils.py` loader instead returns `None` whenever a refresh was
attempted and failed, falling back to default credentials. -/
theorem c4_refresh_failure_behavior :
    (∀ (creds : CredRecord) (expires_at : Option Int) (credsExpired : Bool)
      (now : Int) (msg : String),
      (auth_refresh_step creds expires_at credsExpired now (.failure msg)).1 =
        creds
      ∧ (auth_refresh_step creds expires_at credsExpired now
          (.failure msg)).2 = none)
    ∧ (∀ (creds : CredRecord) (expires_at : Option Int) (credsExpired : Bool)
        (msg : String),
      (expires_at.getD 0 = 0 ∨ credsExpired = true) →
      (utils_refresh_step creds expires_at credsExpired (.failure msg)).1 =
        none) := by
  constructor
  · intro creds expires_at credsExpired now msg
    by_cases hr : creds.refresh_token = ""
    · simp [auth_refresh_step, hr]
    · by_cases hs : authShouldRefresh expires_at credsExpired now = true
      · simp [auth_refresh_step, hr, hs]
      · simp [auth_refresh_step, hr, hs]
  · intro creds expires_at credsExpired msg h
    rcases h with h | h
    · simp [utils_refresh_step, h]
    · simp [utils_refresh_step, h]

/-- C4 (witness): the amended theorem evaluated at a concrete stale
record whose refresh fails: `auth.py` returns the record unchanged with
no config write, `tools/utils.py` returns `None`. -/
theorem c4_witness :
    (auth_refresh_step ⟨"tok", "rt", "cid", "cs", some 1000⟩ (some 1000)
      true 5000 (.failure "invalid_grant")).1 =
      (⟨"tok", "rt", "cid", "cs", some 1000⟩ : CredRecord)
    ∧ (auth_refresh_step ⟨"tok", "rt", "cid", "cs", some 1000⟩ (some 1000)
      true 5000 (.failure "invalid_grant")).2 = none
    ∧ (utils_refresh_step ⟨"tok", "rt", "cid", "cs", some 0⟩ (some 0) false
      (.failure "invalid_grant")).1 = none :=
  ⟨(c4_refresh_failure_behavior.1 _ _ _ _ _).1,
   (c4_refresh_failure_behavior.1 _ _ _ _ _).2,
   c4_refresh_failure_behavior.2 _ _ _ _ (Or.inl rfl)⟩

/-! ## Helper lemmas: JSON field update -/

theorem jLookup_jSet_self (k : String) (v : JVal) :
    ∀ l : List (String × JVal), jLookup k (jSet k v l) = some v := by
  intro l
  induction l with
  | nil => simp [jSet, jLookup]
  | cons e rest ih =>
    rcases e with ⟨k', v'⟩
    by_cases hk : k' = k
    · simp [jSet, jLookup, hk]
    · simp [jSet, jLookup, hk, ih]

theorem jLookup_jSet_ne {k' k : String} (hk : k' ≠ k) (v : JVal) :
    ∀ l : List (String × JVal), jLookup k' (jSet k v l) = jLookup k' l := by
  intro l
  induction l with
  | nil => simp [jSet, jLookup, Ne.symm hk]
  | cons e rest ih =>
    rcases e with ⟨k'', v''⟩
    by_cases hkk : k'' = k
    · subst hkk
      simp [jSet, jLookup, Ne.symm hk]
    · by_cases hk2 : k'' = k'
      · subst hk2
        simp [jSet, jLookup, hkk]
      · simp [jSet, jLookup, hkk, hk2, ih]

/-! ## C9: persisting a refreshed token touches only two fields -/

/-- C9: for a config document whose `googleAnalyticsTokens` value is an
object, `_update_config_file` rewrites exactly `accessToken` and
`expiresAt` inside that object: re-reading the written document yields
the refreshed values at those two keys, every other key of the token
object (e.g. `refreshToken`) unchanged, and every other top-level key
(e.g. `googleOAuthCredentials` with `clientId`/`clientSecret`)
unchanged. -/
theorem c9_update_config_file_frame (fields tf : List (String × JVal))
    (tok : String) (exp : Int)
    (h : jLookup "googleAnalyticsTokens" fields = some (.jobj tf)) :
    update_config_file (.jobj fields) tok exp =
      .jobj (jSet "googleAnalyticsTokens"
        (.jobj (jSet "expiresAt" (.jint exp)
          (jSet "accessToken" (.jstr tok) tf))) fields)
    ∧ jLookup "googleAnalyticsTokens"
        (jSet "googleAnalyticsTokens"
          (.jobj (jSet "expiresAt" (.jint exp)
            (jSet "accessToken" (.jstr tok) tf))) fields) =
      some (.jobj (jSet "expiresAt" (.jint exp)
        (jSet "accessToken" (.jstr tok) tf)))
    ∧ jLookup "accessToken"
        (jSet "expiresAt" (.jint exp) (jSet "accessToken" (.jstr tok) tf)) =
      some (.jstr tok)
    ∧ jLookup "expiresAt"
        (jSet "expiresAt" (.jint exp) (jSet "accessToken" (.jstr tok) tf)) =
      some (.jint exp)
    ∧ (∀ k : String, k ≠ "accessToken" → k ≠ "expiresAt" →
      jLookup k
        (jSet "expiresAt" (.jint exp) (jSet "accessToken" (.jstr tok) tf)) =
      jLookup k tf)
    ∧ (∀ k : String, k ≠ "googleAnalyticsTokens" →
      jLookup k
        (jSet "googleAnalyticsTokens"
          (.jobj (jSet "expiresAt" (.jint exp)
            (jSet "accessToken" (.jstr tok) tf))) fields) =
      jLookup k fields) := by
  refine ⟨?_, jLookup_jSet_self _ _ _, ?_, jLookup_jSet_self _ _ _, ?_, ?_⟩
  · simp [update_config_file, h]
  · rw [jLookup_jSet_ne (by decide) _ _, jLookup_jSet_self]
  · intro k hk1 hk2
    rw [jLookup_jSet_ne hk2, jLookup_jSet_ne hk1]
  · intro k hk
    rw [jLookup_jSet_ne hk]

/-- C9 (witness): the frame theorem evaluated on a concrete config
document: the written document carries the refreshed token and expiry,
and `refreshToken`, `clientId`, `clientSecret` are untouched. -/
theorem c9_witness :
    update_config_file
      (.jobj [("googleOAuthCredentials",
               .jobj [("clientId", .jstr "id"), ("clientSecret", .jstr "sec")]),
              ("googleAnalyticsTokens",
               .jobj [("accessToken", .jstr "old"),
                      ("refreshToken", .jstr "rt"),
                      ("expiresAt", .jint 1)])]) "new" 99 =
      .jobj [("googleOAuthCredentials",
              .jobj [("clientId", .jstr "id"), ("clientSecret", .jstr "sec")]),
             ("googleAnalyticsTokens",
              .jobj [("accessToken", .jstr "new"),
                     ("refreshToken", .jstr "rt"),
                     ("expiresAt", .jint 99)])]
    ∧ jLookup "refreshToken"
        (jSet "expiresAt" (.jint 99) (jSet "accessToken" (.jstr "new")
          [("accessToken", .jstr "old"), ("refreshToken", .jstr "rt"),
           ("expiresAt", .jint 1)])) = some (.jstr "rt")
    ∧ jLookup "googleOAuthCredentials"
        (jSet "googleAnalyticsTokens"
          (.jobj (jSet "expiresAt" (.jint 99) (jSet "accessToken" (.jstr "new")
            [("accessToken", .jstr "old"), ("refreshToken", .jstr "rt"),
             ("expiresAt", .jint 1)])))
          [("googleOAuthCredentials",
            .jobj [("clientId", .jstr "id"), ("clientSecret", .jstr "sec")]),
           ("googleAnalyticsTokens",
            .jobj [("accessToken", .jstr "old"), ("refreshToken", .jstr "rt"),
                   ("expiresAt", .jint 1)])]) =
      some (.jobj [("clientId", .jstr "id"), ("clientSecret", .jstr "sec")]) := by
  have h := c9_update_config_file_frame
    [("googleOAuthCredentials",
      .jobj [("clientId", .jstr "id"), ("clientSecret", .jstr "sec")]),
     ("googleAnalyticsTokens",
      .jobj [("accessToken", .jstr "old"), ("refreshToken", .jstr "rt"),
             ("expiresAt", .jint 1)])]
    [("accessToken", .jstr "old"), ("refreshToken", .jstr "rt"),
     ("expiresAt", .jint 1)] "new" 99 rfl
  refine ⟨h.1.trans ?_, ?_, ?_⟩
  · rfl
  · exact (h.2.2.2.2.1 "refreshToken" (by decide) (by decide)).trans rfl
  · exact (h.2.2.2.2.2 "googleOAuthCredentials" (by decide)).trans rfl

end AnalyticsMcp
